import Mathlib

/-
Verification of the authentication and contact-repository core of the
Web_hw_14 backend (FastAPI + SQLAlchemy).  The Python code is shallowly
embedded: JWT tokens become a structure carrying their claims together with
the key and algorithm they were signed with; the database becomes a list of
records; every route or repository function becomes a pure Lean function
returning the final database state and an `Except` value.  Python-level
exceptions that escape a handler (AttributeError, TypeError, KeyError) are
modelled as distinct error constructors, since FastAPI surfaces them as
HTTP 500 rather than a structured error response.
-/

namespace TodoBackend

/-- Failure of a request handler: an HTTPException raised by the code (with
its status code and detail string), an uncaught Python builtin exception
(AttributeError, TypeError, KeyError), or a FastAPI ResponseValidationError
raised when the returned value does not validate against the handler's
response model; the framework surfaces the latter three as HTTP 500. -/
inductive PyError where
  | http (status : Nat) (detail : String)
  | attributeError
  | typeError
  | keyError (k : String)
  | responseValidationError
  deriving DecidableEq, Repr

/-- Value of a JSON claim as the Python code sees it after jwt.decode: either
null (Python None) or a string. -/
inductive PyVal where
  | none
  | str (s : String)
  deriving DecidableEq, Repr

/-- Claims of an encoded JWT that this service ever reads.  An `Option.none`
field models an absent dictionary key (reading it raises KeyError), while
`some PyVal.none` models a key present with value null. -/
structure Payload where
  sub : Option PyVal
  scope : Option PyVal
  password : Option PyVal
  iat : Nat
  exp : Nat
  deriving DecidableEq, Repr

/-- Caller-supplied claim dictionary handed to the token constructors (the
`data` argument); the constructors copy it and then overwrite iat/exp and,
for access and refresh tokens, scope. -/
structure TokenData where
  sub : Option PyVal
  scope : Option PyVal
  password : Option PyVal
  deriving DecidableEq, Repr

/-- Result of jose.jwt.encode: the claims plus the key and algorithm used to
sign, which is all a later jwt.decode can observe. -/
structure Token where
  payload : Payload
  key : String
  alg : String
  deriving DecidableEq, Repr

/-- Embedding of jose.jwt.decode(token, key, algorithms=[alg]) evaluated at
time `now`: the signature verifies iff the token was signed with the same
key and algorithm, and the exp claim must lie strictly in the future;
otherwise a JWTError is raised (modelled as `Except.error ()`). -/
def jwtDecode (key alg : String) (now : Nat) (t : Token) : Except Unit Payload :=
  if t.key = key ∧ t.alg = alg ∧ now < t.payload.exp then .ok t.payload
  else .error ()

/-- Expiry computation shared by create_access_token and
create_refresh_token: Python tests `if expires_delta:` so a zero delta is
falsy and falls back to the default lifetime. -/
def expOrDefault (now dflt : Nat) (expires_delta : Option Nat) : Nat :=
  match expires_delta with
  | some d => if d = 0 then now + dflt else now + d
  | Option.none => now + dflt

/-- Embedding of Auth.create_access_token: copies `data`, overwrites iat with
now, exp with now + delta (default 15 minutes) and scope with
"access_token", then signs with the service key. -/
def create_access_token (key alg : String) (now : Nat) (data : TokenData)
    (expires_delta : Option Nat) : Token :=
  { payload :=
      { sub := data.sub
        scope := some (PyVal.str "access_token")
        password := data.password
        iat := now
        exp := expOrDefault now (15 * 60) expires_delta }
    key := key
    alg := alg }

/-- Embedding of Auth.create_refresh_token: same as the access constructor
but scope "refresh_token" and a default lifetime of 7 days. -/
def create_refresh_token (key alg : String) (now : Nat) (data : TokenData)
    (expires_delta : Option Nat) : Token :=
  { payload :=
      { sub := data.sub
        scope := some (PyVal.str "refresh_token")
        password := data.password
        iat := now
        exp := expOrDefault now (7 * 24 * 60 * 60) expires_delta }
    key := key
    alg := alg }

/-- Embedding of Auth.create_email_token: copies `data`, overwrites only iat
and exp (1 day); in particular the scope claim is whatever `data` carried,
and the two call sites (send_email, send_password_email) pass no scope. -/
def create_email_token (key alg : String) (now : Nat) (data : TokenData) : Token :=
  { payload :=
      { sub := data.sub
        scope := data.scope
        password := data.password
        iat := now
        exp := now + 24 * 60 * 60 }
    key := key
    alg := alg }

/-- Embedding of Auth.decode_refresh_token.  JWTError becomes the 401
credentials response; a present scope other than "refresh_token" becomes the
401 invalid-scope response; a missing scope or sub key raises KeyError,
which the `except JWTError` clause does not catch. -/
def decode_refresh_token (key alg : String) (now : Nat) (t : Token) :
    Except PyError PyVal :=
  match jwtDecode key alg now t with
  | .error _ => .error (.http 401 "Could not validate credentials")
  | .ok p =>
    match p.scope with
    | Option.none => .error (.keyError "scope")
    | some sc =>
      if sc = PyVal.str "refresh_token" then
        match p.sub with
        | Option.none => .error (.keyError "sub")
        | some e => .ok e
      else .error (.http 401 "Invalid scope for token")

/-- Embedding of Auth.get_email_from_token: signature and expiry are the only
checks (a JWTError becomes HTTP 422); the scope claim is never consulted. -/
def get_email_from_token (key alg : String) (now : Nat) (t : Token) :
    Except PyError PyVal :=
  match jwtDecode key alg now t with
  | .error _ => .error (.http 422 "Invalid token for email verification")
  | .ok p =>
    match p.sub with
    | Option.none => .error (.keyError "sub")
    | some e => .ok e

/-- Embedding of Auth.get_password_from_token: like the email variant but
reading the password claim. -/
def get_password_from_token (key alg : String) (now : Nat) (t : Token) :
    Except PyError PyVal :=
  match jwtDecode key alg now t with
  | .error _ => .error (.http 422 "Invalid token for password verification")
  | .ok p =>
    match p.password with
    | Option.none => .error (.keyError "password")
    | some pw => .ok pw

/-- Account role, entity.models.Role. -/
inductive Role where
  | admin
  | moderator
  | user
  deriving DecidableEq, Repr

/-- Embedding of the Consumer (account) row.  The stored refresh_token column
holds the raw encoded JWT string; since an encoded token is determined by
its claims, key and algorithm, it is modelled as an optional `Token`. -/
structure Consumer where
  id : Nat
  username : String
  email : String
  password : String
  avatar : Option String
  refresh_token : Option Token
  role : Role
  confirmed : Bool
  updated_at : Nat
  deriving DecidableEq, Repr

/-- Embedding of repository.consumers.get_user_by_email: first row whose
email column equals the given value (emails are unique by schema). -/
def get_user_by_email (e : PyVal) (db : List Consumer) : Option Consumer :=
  db.find? (fun c => e = PyVal.str c.email)

/-- Embedding of repository.consumers.update_token: mutates the fetched ORM
object and commits.  The object was fetched by its unique email, so the
update is keyed by email; onupdate=func.now() refreshes updated_at. -/
def update_token (user : Consumer) (tok : Option Token) (now : Nat)
    (db : List Consumer) : List Consumer :=
  db.map (fun c =>
    if c.email = user.email then
      { c with refresh_token := tok, updated_at := now }
    else c)

/-- Embedding of repository.consumers.confirmed_email: re-fetches the row by
email and sets confirmed; a missing row would raise AttributeError. -/
def confirmed_email_repo (e : PyVal) (now : Nat) (db : List Consumer) :
    Except PyError (List Consumer) :=
  match get_user_by_email e db with
  | Option.none => .error .attributeError
  | some u =>
    .ok (db.map (fun c =>
      if c.email = u.email then
        { c with confirmed := true, updated_at := now }
      else c))

/-- Embedding of Auth.get_current_user.  JWTError, a null or wrong scope, a
null sub, and an unknown account all raise the one credentials exception; a
missing scope or sub dictionary key raises KeyError (uncaught). -/
def get_current_user (key alg : String) (now : Nat) (t : Token)
    (db : List Consumer) : Except PyError Consumer :=
  match jwtDecode key alg now t with
  | .error _ => .error (.http 401 "Could not validate credentials")
  | .ok p =>
    match p.scope with
    | Option.none => .error (.keyError "scope")
    | some sc =>
      if sc = PyVal.str "access_token" then
        match p.sub with
        | Option.none => .error (.keyError "sub")
        | some e =>
          if e = PyVal.none then
            .error (.http 401 "Could not validate credentials")
          else
            match get_user_by_email e db with
            | Option.none => .error (.http 401 "Could not validate credentials")
            | some u => .ok u
      else .error (.http 401 "Could not validate credentials")

/-- Embedding of routes.auth.login.  The handler looks the account up by the
submitted username (an email), checks existence, then the confirmed flag,
then the password, each with its own 401 detail; on success it issues a
token pair and persists the new refresh token.  The password check is the
external bcrypt verify, passed in as `verify`. -/
def login (verify : String → String → Bool) (key alg : String) (now : Nat)
    (username pw : String) (db : List Consumer) :
    List Consumer × Except PyError (Token × Token) :=
  match get_user_by_email (PyVal.str username) db with
  | Option.none => (db, .error (.http 401 "Invalid email"))
  | some user =>
    if user.confirmed = false then
      (db, .error (.http 401 "Email not confirmed"))
    else if verify pw user.password = false then
      (db, .error (.http 401 "Invalid password"))
    else
      let access := create_access_token key alg now
        ⟨some (PyVal.str user.email), Option.none, Option.none⟩ Option.none
      let refresh := create_refresh_token key alg now
        ⟨some (PyVal.str user.email), Option.none, Option.none⟩ Option.none
      (update_token user (some refresh) now db, .ok (access, refresh))

/-- Embedding of routes.auth.refresh_token.  The handler decodes the bearer
token, fetches the account by the embedded email (a missing account makes
the following attribute access raise AttributeError), clears the stored
token and fails on mismatch, and otherwise rotates the stored refresh
token.  The first component of the result is the final database state,
committed even when the handler then raises. -/
def refresh_token_route (key alg : String) (now : Nat) (t : Token)
    (db : List Consumer) : List Consumer × Except PyError (Token × Token) :=
  match decode_refresh_token key alg now t with
  | .error e => (db, .error e)
  | .ok email =>
    match get_user_by_email email db with
    | Option.none => (db, .error .attributeError)
    | some user =>
      if user.refresh_token = some t then
        let access := create_access_token key alg now
          ⟨some email, Option.none, Option.none⟩ Option.none
        let refresh := create_refresh_token key alg now
          ⟨some email, Option.none, Option.none⟩ Option.none
        (update_token user (some refresh) now db, .ok (access, refresh))
      else
        (update_token user Option.none now db,
          .error (.http 401 "Invalid refresh token"))

/-- Embedding of routes.auth.confirmed_email.  A bad token is a 422 from
get_email_from_token; an unknown account is a 400; an already-confirmed
account returns the already-confirmed message without touching the
database; otherwise the repository sets the flag. -/
def confirmed_email_route (key alg : String) (now : Nat) (t : Token)
    (db : List Consumer) : List Consumer × Except PyError String :=
  match get_email_from_token key alg now t with
  | .error e => (db, .error e)
  | .ok email =>
    match get_user_by_email email db with
    | Option.none => (db, .error (.http 400 "Verification error"))
    | some user =>
      if user.confirmed then (db, .ok "Your email is already confirmed")
      else
        match confirmed_email_repo email now db with
        | .error e => (db, .error e)
        | .ok db2 => (db2, .ok "Email confirmed")

/-- Embedding of routes.auth.request_email.  The handler reads
user.confirmed before its `if user:` guard, so a missing account raises
AttributeError; a confirmed account gets the already-confirmed message; an
unconfirmed one queues the confirmation mail (the Bool records whether the
background task was queued). -/
def request_email (e : String) (db : List Consumer) :
    Except PyError (String × Bool) :=
  match get_user_by_email (PyVal.str e) db with
  | Option.none => .error .attributeError
  | some user =>
    if user.confirmed then .ok ("Your email is already confirmed", false)
    else .ok ("Check your email for confirmation.", true)

/-- Embedding of the User (contact) row; birth_date and the timestamps are
modelled as day and tick counts. -/
structure Contact where
  id : Nat
  first_name : String
  second_name : String
  phone_num : String
  email_add : String
  birth_date : Nat
  consumer_id : Nat
  updated_at : Nat
  deriving DecidableEq, Repr

/-- Request body for contact creation and update, schemas.user.UserSchema. -/
structure ContactBody where
  first_name : String
  second_name : String
  phone_num : String
  email_add : String
  birth_date : Nat
  deriving DecidableEq, Repr

/-- Embedding of repository.users.get_user: first contact matching both the
id and the owning consumer (the relationship filter compares the foreign
key to the consumer primary key). -/
def get_user (user_id : Nat) (consumer : Consumer) (db : List Contact) :
    Option Contact :=
  db.find? (fun u => u.id = user_id ∧ u.consumer_id = consumer.id)

/-- Embedding of repository.users.update_user: fetches the contact scoped by
owner; when found, overwrites the five mutable fields on that row (keyed by
the primary key) and returns the refreshed row, else returns null leaving
the database untouched. -/
def update_user (user_id : Nat) (body : ContactBody) (consumer : Consumer)
    (now : Nat) (db : List Contact) : List Contact × Option Contact :=
  match db.find? (fun u => u.id = user_id ∧ u.consumer_id = consumer.id) with
  | Option.none => (db, Option.none)
  | some u =>
    let u2 := { u with
      first_name := body.first_name
      second_name := body.second_name
      email_add := body.email_add
      phone_num := body.phone_num
      birth_date := body.birth_date
      updated_at := now }
    (db.map (fun c => if c.id = u.id then u2 else c), some u2)

/-- Embedding of repository.users.delete_user: fetches the contact scoped by
owner; when found, deletes that row and returns it, else returns null. -/
def delete_user (user_id : Nat) (consumer : Consumer) (db : List Contact) :
    List Contact × Option Contact :=
  match db.find? (fun u => u.id = user_id ∧ u.consumer_id = consumer.id) with
  | Option.none => (db, Option.none)
  | some u => (db.filter (fun c => c.id ≠ u.id), some u)

/-- Embedding of the routes.users get_user handler: 404 when the scoped
lookup returns null. -/
def get_user_route (user_id : Nat) (consumer : Consumer) (db : List Contact) :
    Except PyError Contact :=
  match get_user user_id consumer db with
  | Option.none => .error (.http 404 "NOT FOUND")
  | some u => .ok u

/-- Embedding of the routes.users update_user handler: 404 when the scoped
update returns null. -/
def update_user_route (user_id : Nat) (body : ContactBody)
    (consumer : Consumer) (now : Nat) (db : List Contact) :
    List Contact × Except PyError Contact :=
  let r := update_user user_id body consumer now db
  match r.2 with
  | Option.none => (r.1, .error (.http 404 "NOT FOUND"))
  | some u => (r.1, .ok u)

/-- Embedding of the routes.users delete_user handler: unlike get and
update, it has no 404 branch and returns the repository result directly.
Its return annotation UserResponse is the inferred response model, so a
null repository result fails response validation and FastAPI surfaces the
ResponseValidationError as HTTP 500; a found contact validates and is
returned. -/
def delete_user_route (user_id : Nat) (consumer : Consumer)
    (db : List Contact) : List Contact × Except PyError Contact :=
  let r := delete_user user_id consumer db
  match r.2 with
  | Option.none => (r.1, .error .responseValidationError)
  | some u => (r.1, .ok u)

/-- One argument of a SQLAlchemy Select.filter_by call.  The real method
accepts keyword arguments only; passing a comparison expression positionally
is a call-time TypeError. -/
inductive FilterByArg where
  | positional (pred : Contact → Bool)
  | keyword (field : String) (pred : Contact → Bool)

/-- Embedding of Select.filter_by followed by execute: rejects any
positional argument with TypeError, otherwise filters by the conjunction of
the keyword criteria. -/
def select_filter_by (args : List FilterByArg) (db : List Contact) :
    Except PyError (List Contact) :=
  if args.any (fun a => match a with
      | FilterByArg.positional _ => true
      | FilterByArg.keyword _ _ => false) then
    .error .typeError
  else
    .ok (db.filter (fun c => args.all (fun a => match a with
      | FilterByArg.positional p => p c
      | FilterByArg.keyword _ p => p c)))

/-- Embedding of repository.users.get_users_birth exactly as written: the two
date-range comparisons are passed to filter_by positionally, the owner
filter as a keyword. -/
def get_users_birth (limit : Nat) (today : Nat) (consumer : Consumer)
    (db : List Contact) : Except PyError (List Contact) :=
  let current_date := today
  let end_date := today + limit
  select_filter_by
    [ FilterByArg.positional (fun u => decide (current_date ≤ u.birth_date))
    , FilterByArg.positional (fun u => decide (u.birth_date ≤ end_date))
    , FilterByArg.keyword "consumer" (fun u => u.consumer_id == consumer.id) ]
    db

/-- Sample bcrypt stand-in used by concrete witnesses: a digest verifies iff
it is the tagged form of the plaintext. -/
def sampleVerify : String → String → Bool := fun p h => h = "hash:" ++ p

/-- Sample confirmed account for witnesses. -/
def alice : Consumer :=
  { id := 1, username := "Alice", email := "alice@x.com",
    password := "hash:secret1", avatar := Option.none,
    refresh_token := Option.none, role := Role.user, confirmed := true,
    updated_at := 0 }

/-- Sample unconfirmed account for witnesses. -/
def bob : Consumer :=
  { id := 2, username := "Bob", email := "bob@x.com",
    password := "hash:secret2", avatar := Option.none,
    refresh_token := Option.none, role := Role.user, confirmed := false,
    updated_at := 0 }

/-- Sample credential store for witnesses. -/
def sampleDb : List Consumer := [alice, bob]

/-- Lookup by email commutes with any per-row rewrite that preserves the
email column: the rewritten first match is the first match rewritten. -/
theorem get_user_by_email_map (e : PyVal) (f : Consumer → Consumer)
    (hf : ∀ c, (f c).email = c.email) (db : List Consumer) :
    get_user_by_email e (db.map f) = (get_user_by_email e db).map f := by
  unfold get_user_by_email
  rw [List.find?_map]
  have hp : ((fun c => decide (e = PyVal.str c.email)) ∘ f) =
      (fun c => decide (e = PyVal.str c.email)) := by
    funext c
    simp [Function.comp, hf]
  rw [hp]

/-- Inversion for decode_refresh_token: it returns an email exactly when the
token is signed with the given key and algorithm, unexpired, of scope
"refresh_token", and carries that sub claim. -/
theorem decode_refresh_token_ok_iff (key alg : String) (now : Nat)
    (t : Token) (e : PyVal) :
    decode_refresh_token key alg now t = .ok e ↔
      (t.key = key ∧ t.alg = alg ∧ now < t.payload.exp ∧
       t.payload.scope = some (PyVal.str "refresh_token") ∧
       t.payload.sub = some e) := by
  unfold decode_refresh_token jwtDecode
  by_cases h : t.key = key ∧ t.alg = alg ∧ now < t.payload.exp
  · rw [if_pos h]
    cases hs : t.payload.scope with
    | none => simp [h, hs]
    | some sc =>
      by_cases hsc : sc = PyVal.str "refresh_token"
      · subst hsc
        cases hsub : t.payload.sub with
        | none => simp [h, hs, hsub]
        | some e2 => simp [h, hs, hsub]
      · simp [h, hs, hsc]
  · rw [if_neg h]
    constructor
    · intro hcontra
      exact Except.noConfusion hcontra
    · rintro ⟨h1, h2, h3, -, -⟩
      exact (h ⟨h1, h2, h3⟩).elim

/-- C1: for every account and (email, password) pair, login succeeds iff an
account with that email exists, is confirmed, and the password verifies;
each failing path yields its specific 401 variant (invalid email, then not
confirmed, then invalid password), checked in that order. -/
theorem login_iff_confirmed_and_verified
    (verify : String → String → Bool) (key alg : String) (now : Nat)
    (email pw : String) (db : List Consumer) :
    ((login verify key alg now email pw db).2.isOk = true ↔
      ∃ u, get_user_by_email (PyVal.str email) db = some u ∧
        u.confirmed = true ∧ verify pw u.password = true)
    ∧ (get_user_by_email (PyVal.str email) db = Option.none →
        (login verify key alg now email pw db).2 =
          .error (.http 401 "Invalid email"))
    ∧ (∀ u, get_user_by_email (PyVal.str email) db = some u →
        u.confirmed = false →
        (login verify key alg now email pw db).2 =
          .error (.http 401 "Email not confirmed"))
    ∧ (∀ u, get_user_by_email (PyVal.str email) db = some u →
        u.confirmed = true → verify pw u.password = false →
        (login verify key alg now email pw db).2 =
          .error (.http 401 "Invalid password")) := by
  unfold login
  cases hu : get_user_by_email (PyVal.str email) db with
  | none => simp [Except.isOk, Except.toBool]
  | some u =>
    cases hc : u.confirmed with
    | false => simp [hc, Except.isOk, Except.toBool]
    | true =>
      cases hv : verify pw u.password with
      | false => simp [hc, hv, Except.isOk, Except.toBool]
      | true =>
        refine ⟨by simp [hc, hv, Except.isOk, Except.toBool], by simp, ?_, ?_⟩
        · intro u2 hu2 hc2
          cases hu2
          simp [hc] at hc2
        · intro u2 hu2 _ hv2
          cases hu2
          simp [hv] at hv2

/-- Witness for C1: each branch of the login contract evaluated on the
sample store. -/
theorem login_iff_confirmed_and_verified_witness :
    (login sampleVerify "secret" "HS256" 0 "alice@x.com" "secret1"
      sampleDb).2.isOk = true
    ∧ (login sampleVerify "secret" "HS256" 0 "ghost@x.com" "secret1"
        sampleDb).2 = .error (.http 401 "Invalid email")
    ∧ (login sampleVerify "secret" "HS256" 0 "bob@x.com" "secret2"
        sampleDb).2 = .error (.http 401 "Email not confirmed")
    ∧ (login sampleVerify "secret" "HS256" 0 "alice@x.com" "wrong"
        sampleDb).2 = .error (.http 401 "Invalid password") := by
  refine ⟨?_, ?_, ?_, ?_⟩
  · exact (login_iff_confirmed_and_verified sampleVerify "secret" "HS256" 0
      "alice@x.com" "secret1" sampleDb).1.mpr
      ⟨alice, by decide, by decide, by decide⟩
  · exact (login_iff_confirmed_and_verified sampleVerify "secret" "HS256" 0
      "ghost@x.com" "secret1" sampleDb).2.1 (by decide)
  · exact (login_iff_confirmed_and_verified sampleVerify "secret" "HS256" 0
      "bob@x.com" "secret2" sampleDb).2.2.1 bob (by decide) (by decide)
  · exact (login_iff_confirmed_and_verified sampleVerify "secret" "HS256" 0
      "alice@x.com" "wrong" sampleDb).2.2.2 alice (by decide) (by decide)
      (by decide)

/-- C2: an access token (scope "access_token") is rejected with a 401 by
decode_refresh_token, and a refresh token (scope "refresh_token") is
rejected with a 401 by get_current_user, for every payload, issue time,
verification time and store. -/
theorem cross_scope_rejection (key alg : String) (now now2 : Nat)
    (data : TokenData) (delta : Option Nat) (db : List Consumer) :
    (∃ d, decode_refresh_token key alg now2
        (create_access_token key alg now data delta) =
        .error (.http 401 d))
    ∧ (∃ d, get_current_user key alg now2
        (create_refresh_token key alg now data delta) db =
        .error (.http 401 d)) := by
  constructor
  · by_cases h : now2 < expOrDefault now (15 * 60) delta
    · exact ⟨"Invalid scope for token",
        by simp [decode_refresh_token, jwtDecode, create_access_token, h]⟩
    · exact ⟨"Could not validate credentials",
        by simp [decode_refresh_token, jwtDecode, create_access_token, h]⟩
  · by_cases h : now2 < expOrDefault now (7 * 24 * 60 * 60) delta
    · exact ⟨"Could not validate credentials",
        by simp [get_current_user, jwtDecode, create_refresh_token, h]⟩
    · exact ⟨"Could not validate credentials",
        by simp [get_current_user, jwtDecode, create_refresh_token, h]⟩

/-- Lookup by email after update_token: the rewrite touches only the row
with the mutated email and preserves every email column. -/
theorem get_user_by_email_update_token (e : PyVal) (u : Consumer)
    (tok : Option Token) (now : Nat) (db : List Consumer) :
    get_user_by_email e (update_token u tok now db) =
      (get_user_by_email e db).map (fun c =>
        if c.email = u.email then
          { c with refresh_token := tok, updated_at := now }
        else c) := by
  unfold update_token
  exact get_user_by_email_map e _
    (fun c => by by_cases h : c.email = u.email <;> simp [h]) db

/-- C3: presenting a validly decoded refresh token that does not match the
stored one clears the stored token and fails with 401; after a legitimate
refresh rotates the stored token (to a token with a fresh iat), presenting
the old token again fails with a 401. -/
theorem refresh_reuse_detection (key alg : String) (now now2 : Nat)
    (t : Token) (db : List Consumer) (A : Consumer) (e : PyVal)
    (hdec : decode_refresh_token key alg now t = .ok e)
    (hfind : get_user_by_email e db = some A) :
    (A.refresh_token ≠ some t →
      refresh_token_route key alg now t db =
        (update_token A Option.none now db,
          .error (.http 401 "Invalid refresh token")) ∧
      get_user_by_email e (update_token A Option.none now db) =
        some { A with refresh_token := Option.none, updated_at := now })
    ∧ (A.refresh_token = some t → t.payload.iat ≠ now →
      ((refresh_token_route key alg now t db).2.isOk = true ∧
       ∃ d, (refresh_token_route key alg now2 t
          ((refresh_token_route key alg now t db).1)).2 =
          .error (.http 401 d))) := by
  obtain ⟨hkey, halg, hexp, hscope, hsub⟩ :=
    (decode_refresh_token_ok_iff key alg now t e).mp hdec
  constructor
  · intro hne
    constructor
    · simp only [refresh_token_route, hdec, hfind]
      rw [if_neg hne]
    · rw [get_user_by_email_update_token, hfind]
      simp
  · intro heq hiat
    have hroute : refresh_token_route key alg now t db =
        (update_token A (some (create_refresh_token key alg now
            ⟨some e, Option.none, Option.none⟩ Option.none)) now db,
          .ok (create_access_token key alg now
              ⟨some e, Option.none, Option.none⟩ Option.none,
            create_refresh_token key alg now
              ⟨some e, Option.none, Option.none⟩ Option.none)) := by
      simp only [refresh_token_route, hdec, hfind]
      rw [if_pos heq]
    refine ⟨by rw [hroute]; rfl, ?_⟩
    rw [hroute]
    by_cases h2 : now2 < t.payload.exp
    · have hdec2 : decode_refresh_token key alg now2 t = .ok e :=
        (decode_refresh_token_ok_iff key alg now2 t e).mpr
          ⟨hkey, halg, h2, hscope, hsub⟩
      have hfind2 : get_user_by_email e
          (update_token A (some (create_refresh_token key alg now
            ⟨some e, Option.none, Option.none⟩ Option.none)) now db) =
          some { A with
            refresh_token := some (create_refresh_token key alg now
              ⟨some e, Option.none, Option.none⟩ Option.none)
            updated_at := now } := by
        rw [get_user_by_email_update_token, hfind]
        simp
      refine ⟨"Invalid refresh token", ?_⟩
      simp only [refresh_token_route, hdec2, hfind2]
      rw [if_neg ?_]
      intro hcontra
      simp only [Option.some.injEq] at hcontra
      have : (create_refresh_token key alg now
          ⟨some e, Option.none, Option.none⟩ Option.none).payload.iat =
          t.payload.iat := by rw [hcontra]
      simp [create_refresh_token] at this
      exact hiat this.symm
    · refine ⟨"Could not validate credentials", ?_⟩
      have hdec2 : decode_refresh_token key alg now2 t =
          .error (.http 401 "Could not validate credentials") := by
        unfold decode_refresh_token jwtDecode
        rw [if_neg (by intro hcon; exact h2 hcon.2.2)]
      simp only [refresh_token_route, hdec2]

/-- Sample refresh token stored for alice in the rotation witness. -/
def tOld : Token :=
  { payload :=
      { sub := some (PyVal.str "alice@x.com")
        scope := some (PyVal.str "refresh_token")
        password := Option.none
        iat := 0
        exp := 1000 }
    key := "secret"
    alg := "HS256" }

/-- Sample store in which alice currently holds tOld. -/
def dbTok : List Consumer := [{ alice with refresh_token := some tOld }, bob]

/-- Witness for C3: on the sample store, a mismatched presentation clears
the stored token and fails, and after a legitimate rotation the old token
is rejected. -/
theorem refresh_reuse_detection_witness :
    refresh_token_route "secret" "HS256" 5 tOld sampleDb =
      (update_token alice Option.none 5 sampleDb,
        .error (.http 401 "Invalid refresh token"))
    ∧ (refresh_token_route "secret" "HS256" 5 tOld dbTok).2.isOk = true
    ∧ (refresh_token_route "secret" "HS256" 7 tOld
        ((refresh_token_route "secret" "HS256" 5 tOld dbTok).1)).2.isOk =
        false := by
  refine ⟨?_, ?_, ?_⟩
  · exact ((refresh_reuse_detection "secret" "HS256" 5 7 tOld sampleDb alice
      (PyVal.str "alice@x.com") (by rfl) (by decide)).1 (by decide)).1
  · exact ((refresh_reuse_detection "secret" "HS256" 5 7 tOld dbTok
      { alice with refresh_token := some tOld } (PyVal.str "alice@x.com")
      (by rfl) (by decide)).2 (by decide) (by decide)).1
  · obtain ⟨d, hd⟩ := ((refresh_reuse_detection "secret" "HS256" 5 7 tOld
      dbTok { alice with refresh_token := some tOld }
      (PyVal.str "alice@x.com") (by rfl) (by decide)).2
      (by decide) (by decide)).2
    rw [hd]
    rfl

/-- C7: confirming an already-confirmed account succeeds with the
already-confirmed message and leaves the store untouched (hence any number
of repetitions behave identically); confirming an unconfirmed account sets
its confirmed flag (bumping updated_at). -/
theorem confirm_email_idempotent (key alg : String) (now : Nat) (t : Token)
    (db : List Consumer) (e : PyVal) (A : Consumer)
    (htok : get_email_from_token key alg now t = .ok e)
    (hfind : get_user_by_email e db = some A) :
    (A.confirmed = true →
      confirmed_email_route key alg now t db =
        (db, .ok "Your email is already confirmed"))
    ∧ (A.confirmed = false →
      confirmed_email_route key alg now t db =
        (db.map (fun c => if c.email = A.email then
            { c with confirmed := true, updated_at := now } else c),
          .ok "Email confirmed")) := by
  constructor
  · intro hc
    simp only [confirmed_email_route, htok, hfind]
    rw [if_pos hc]
  · intro hc
    simp only [confirmed_email_route, htok, hfind, confirmed_email_repo]
    rw [if_neg (by simp [hc])]

/-- Sample email-confirmation token for alice. -/
def tMailAlice : Token :=
  { payload :=
      { sub := some (PyVal.str "alice@x.com")
        scope := Option.none
        password := Option.none
        iat := 0
        exp := 1000 }
    key := "secret"
    alg := "HS256" }

/-- Sample email-confirmation token for bob. -/
def tMailBob : Token :=
  { payload :=
      { sub := some (PyVal.str "bob@x.com")
        scope := Option.none
        password := Option.none
        iat := 0
        exp := 1000 }
    key := "secret"
    alg := "HS256" }

/-- Witness for C7: on the sample store, confirming already-confirmed alice
is a no-op success and confirming unconfirmed bob flips his flag. -/
theorem confirm_email_idempotent_witness :
    confirmed_email_route "secret" "HS256" 5 tMailAlice sampleDb =
      (sampleDb, .ok "Your email is already confirmed")
    ∧ confirmed_email_route "secret" "HS256" 5 tMailBob sampleDb =
      (sampleDb.map (fun c => if c.email = bob.email then
          { c with confirmed := true, updated_at := 5 } else c),
        .ok "Email confirmed") := by
  constructor
  · exact (confirm_email_idempotent "secret" "HS256" 5 tMailAlice sampleDb
      (PyVal.str "alice@x.com") alice (by rfl) (by decide)).1 (by decide)
  · exact (confirm_email_idempotent "secret" "HS256" 5 tMailBob sampleDb
      (PyVal.str "bob@x.com") bob (by rfl) (by decide)).2 (by decide)

/-- C10: a valid, unexpired, access-scoped token whose subject matches no
account is rejected by get_current_user with the very same 401 response
used for a bad signature or a wrong scope, so the caller cannot tell a
missing account from a cryptographically invalid token. -/
theorem unknown_subject_indistinguishable (key alg : String) (now : Nat)
    (t : Token) (s : String) (db : List Consumer)
    (hkey : t.key = key) (halg : t.alg = alg)
    (hexp : now < t.payload.exp)
    (hscope : t.payload.scope = some (PyVal.str "access_token"))
    (hsub : t.payload.sub = some (PyVal.str s))
    (hnone : get_user_by_email (PyVal.str s) db = Option.none) :
    get_current_user key alg now t db =
      .error (.http 401 "Could not validate credentials")
    ∧ (∀ t2 : Token, t2.key ≠ key →
        get_current_user key alg now t2 db =
          .error (.http 401 "Could not validate credentials"))
    ∧ (∀ t2 : Token, t2.key = key → t2.alg = alg →
        now < t2.payload.exp →
        t2.payload.scope = some (PyVal.str "refresh_token") →
        get_current_user key alg now t2 db =
          .error (.http 401 "Could not validate credentials")) := by
  refine ⟨?_, ?_, ?_⟩
  · simp [get_current_user, jwtDecode, hkey, halg, hexp, hscope, hsub, hnone]
  · intro t2 h2
    unfold get_current_user jwtDecode
    rw [if_neg (by intro hcon; exact h2 hcon.1)]
  · intro t2 h2k h2a h2e h2s
    simp [get_current_user, jwtDecode, h2k, h2a, h2e, h2s]

/-- Sample access token whose subject matches no account. -/
def tGhost : Token :=
  { payload :=
      { sub := some (PyVal.str "ghost@x.com")
        scope := some (PyVal.str "access_token")
        password := Option.none
        iat := 0
        exp := 1000 }
    key := "secret"
    alg := "HS256" }

/-- Sample token signed with the wrong key. -/
def tBadKey : Token :=
  { payload :=
      { sub := some (PyVal.str "alice@x.com")
        scope := some (PyVal.str "access_token")
        password := Option.none
        iat := 0
        exp := 1000 }
    key := "other"
    alg := "HS256" }

/-- Witness for C10: the ghost-subject token, a wrong-key token and a
refresh-scoped token all produce the identical 401 response. -/
theorem unknown_subject_indistinguishable_witness :
    get_current_user "secret" "HS256" 5 tGhost sampleDb =
      .error (.http 401 "Could not validate credentials")
    ∧ get_current_user "secret" "HS256" 5 tBadKey sampleDb =
      .error (.http 401 "Could not validate credentials")
    ∧ get_current_user "secret" "HS256" 5 tOld sampleDb =
      .error (.http 401 "Could not validate credentials") := by
  have h := unknown_subject_indistinguishable "secret" "HS256" 5 tGhost
    "ghost@x.com" sampleDb (by rfl) (by rfl) (by decide) (by rfl) (by rfl)
    (by decide)
  exact ⟨h.1, h.2.1 tBadKey (by decide), h.2.2 tOld (by rfl) (by rfl)
    (by decide) (by rfl)⟩

/-- C4 (amended): the repository lookups for get-by-id, update and delete
are scoped by the owner, so invoked with another account they return null
and leave the store untouched; the get and update routes surface the null
as a 404, while the delete route has no 404 branch — its null return fails
validation against the inferred UserResponse response model and surfaces
as an HTTP 500. -/
theorem contact_scoping (A B : Consumer) (c : Contact) (db : List Contact)
    (body : ContactBody) (now : Nat)
    (hAB : A.id ≠ B.id) (hown : c.consumer_id = A.id)
    (huniq : ∀ c2 ∈ db, c2.id = c.id → c2 = c) :
    get_user c.id B db = Option.none
    ∧ get_user_route c.id B db = .error (.http 404 "NOT FOUND")
    ∧ update_user c.id body B now db = (db, Option.none)
    ∧ update_user_route c.id body B now db =
        (db, .error (.http 404 "NOT FOUND"))
    ∧ delete_user c.id B db = (db, Option.none)
    ∧ delete_user_route c.id B db = (db, .error .responseValidationError) := by
  have hfind : db.find?
      (fun u => decide (u.id = c.id ∧ u.consumer_id = B.id)) =
      Option.none := by
    rw [List.find?_eq_none]
    intro x hx
    simp only [decide_eq_true_eq, not_and]
    intro hid
    rw [huniq x hx hid, hown]
    exact fun h => hAB h
  have hget : get_user c.id B db = Option.none := by
    unfold get_user
    exact hfind
  have hupd : update_user c.id body B now db = (db, Option.none) := by
    simp only [update_user, hfind]
  have hdel : delete_user c.id B db = (db, Option.none) := by
    simp only [delete_user, hfind]
  refine ⟨hget, ?_, hupd, ?_, hdel, ?_⟩
  · simp only [get_user_route, hget]
  · simp only [update_user_route, hupd]
  · simp only [delete_user_route, hdel]

/-- Sample contact owned by alice (consumer id 1). -/
def contact10 : Contact :=
  { id := 10, first_name := "John", second_name := "Doe",
    phone_num := "123", email_add := "john@x.com", birth_date := 30,
    consumer_id := 1, updated_at := 0 }

/-- Sample contact store. -/
def contactsDb : List Contact := [contact10]

/-- Counterexample for C4 as stated: bob deleting alice's contact is NOT
surfaced as a 404 — the delete handler returns the null repository result,
which fails response-model validation and surfaces as an HTTP 500. -/
theorem contact_delete_not_404 :
    delete_user_route 10 bob contactsDb =
      (contactsDb, .error .responseValidationError) :=
  rfl

/-- Sample update body for the contact-scoping witness. -/
def bodyW : ContactBody :=
  { first_name := "X", second_name := "Y", phone_num := "9",
    email_add := "x@y.z", birth_date := 1 }

/-- Witness for C4: bob can neither see, update nor delete alice's
contact; get and update yield a 404 while delete surfaces the validation
failure. -/
theorem contact_scoping_witness :
    get_user 10 bob contactsDb = Option.none
    ∧ get_user_route 10 bob contactsDb = .error (.http 404 "NOT FOUND")
    ∧ update_user 10 bodyW bob 5 contactsDb = (contactsDb, Option.none)
    ∧ update_user_route 10 bodyW bob 5 contactsDb =
        (contactsDb, .error (.http 404 "NOT FOUND"))
    ∧ delete_user 10 bob contactsDb = (contactsDb, Option.none)
    ∧ delete_user_route 10 bob contactsDb =
        (contactsDb, .error .responseValidationError) := by
  have h := contact_scoping alice bob contact10 contactsDb bodyW 5
    (by decide) (by decide) (by decide)
  exact h

/-- C8 (the code, evaluated): request_email raises AttributeError for an
email matching no account, because user.confirmed is read before the
existence check; for existing accounts it behaves as specified. -/
theorem request_email_crashes_on_unknown_email :
    request_email "ghost@x.com" sampleDb = .error .attributeError
    ∧ request_email "alice@x.com" sampleDb =
        .ok ("Your email is already confirmed", false)
    ∧ request_email "bob@x.com" sampleDb =
        .ok ("Check your email for confirmation.", true) :=
  ⟨rfl, rfl, rfl⟩

/-- C9 (the code, evaluated): get_users_birth passes its two date-range
criteria to filter_by positionally, so every invocation raises TypeError
instead of returning the contacts with upcoming birthdays. -/
theorem get_users_birth_raises_type_error (limit today : Nat)
    (consumer : Consumer) (db : List Contact) :
    get_users_birth limit today consumer db = .error .typeError :=
  rfl

/-- Counterexample for C5 as stated: an email-confirmation token issued from
the send_email payload carries no scope claim at all, and the email
verifier happily accepts a token whose scope is "access_token" — so neither
do all four token kinds carry a scope, nor does every verifier assert
one. -/
theorem email_token_lacks_scope :
    (create_email_token "secret" "HS256" 0
      ⟨some (PyVal.str "alice@x.com"), Option.none,
        Option.none⟩).payload.scope = Option.none
    ∧ get_email_from_token "secret" "HS256" 5
        (create_access_token "secret" "HS256" 0
          ⟨some (PyVal.str "alice@x.com"), Option.none, Option.none⟩
          Option.none) =
        .ok (PyVal.str "alice@x.com") :=
  ⟨rfl, rfl⟩

/-- C5 (amended): access and refresh tokens carry subject, issued-at,
expiry and their distinguishing scope claim, asserted exactly by
get_current_user and decode_refresh_token; email-confirmation and
password-reset tokens carry subject, issued-at and expiry (plus the
plaintext password for resets) but no scope claim, and their verifier
checks only signature and expiry, never a scope. -/
theorem token_scope_claims (key alg : String) (now : Nat) (data : TokenData)
    (delta : Option Nat) (s pw : String) (db : List Consumer) :
    ((create_access_token key alg now data delta).payload.scope =
        some (PyVal.str "access_token")
      ∧ (create_access_token key alg now data delta).payload.sub = data.sub
      ∧ (create_access_token key alg now data delta).payload.iat = now)
    ∧ ((create_refresh_token key alg now data delta).payload.scope =
        some (PyVal.str "refresh_token")
      ∧ (create_refresh_token key alg now data delta).payload.sub = data.sub
      ∧ (create_refresh_token key alg now data delta).payload.iat = now)
    ∧ ((create_email_token key alg now
        ⟨some (PyVal.str s), Option.none, Option.none⟩).payload.scope =
        Option.none
      ∧ (create_email_token key alg now
          ⟨some (PyVal.str s), Option.none,
            some (PyVal.str pw)⟩).payload.scope = Option.none)
    ∧ (∀ t : Token, t.key = key → t.alg = alg → now < t.payload.exp →
        ∀ sc, t.payload.scope = some sc → sc ≠ PyVal.str "refresh_token" →
        decode_refresh_token key alg now t =
          .error (.http 401 "Invalid scope for token"))
    ∧ (∀ t : Token, t.key = key → t.alg = alg → now < t.payload.exp →
        ∀ sc, t.payload.scope = some sc → sc ≠ PyVal.str "access_token" →
        get_current_user key alg now t db =
          .error (.http 401 "Could not validate credentials"))
    ∧ (∀ t : Token, t.key = key → t.alg = alg → now < t.payload.exp →
        ∀ v, t.payload.sub = some v →
        get_email_from_token key alg now t = .ok v) := by
  refine ⟨⟨rfl, rfl, rfl⟩, ⟨rfl, rfl, rfl⟩, ⟨rfl, rfl⟩, ?_, ?_, ?_⟩
  · intro t hk ha he sc hs hne
    simp [decode_refresh_token, jwtDecode, hk, ha, he, hs, hne]
  · intro t hk ha he sc hs hne
    simp [get_current_user, jwtDecode, hk, ha, he, hs, hne]
  · intro t hk ha he v hv
    simp [get_email_from_token, jwtDecode, hk, ha, he, hv]

/-- Witness for C5 at concrete tokens: the scope claims of freshly issued
tokens, a wrong-scope rejection by each strict verifier, and the email
verifier extracting the subject from a scopeless token. -/
theorem token_scope_claims_witness :
    (create_access_token "secret" "HS256" 0
      ⟨some (PyVal.str "alice@x.com"), Option.none, Option.none⟩
      Option.none).payload.scope = some (PyVal.str "access_token")
    ∧ (create_refresh_token "secret" "HS256" 0
        ⟨some (PyVal.str "alice@x.com"), Option.none, Option.none⟩
        Option.none).payload.scope = some (PyVal.str "refresh_token")
    ∧ decode_refresh_token "secret" "HS256" 5 tGhost =
        .error (.http 401 "Invalid scope for token")
    ∧ get_current_user "secret" "HS256" 5 tOld sampleDb =
        .error (.http 401 "Could not validate credentials")
    ∧ get_email_from_token "secret" "HS256" 5 tMailAlice =
        .ok (PyVal.str "alice@x.com") := by
  have h := token_scope_claims "secret" "HS256" 0
    ⟨some (PyVal.str "alice@x.com"), Option.none, Option.none⟩ Option.none
    "alice@x.com" "pw" sampleDb
  have h5 := token_scope_claims "secret" "HS256" 5
    ⟨some (PyVal.str "alice@x.com"), Option.none, Option.none⟩ Option.none
    "alice@x.com" "pw" sampleDb
  refine ⟨h.1.1, h.2.1.1, ?_, ?_, ?_⟩
  · exact h5.2.2.2.1 tGhost (by rfl) (by rfl) (by decide)
      (PyVal.str "access_token") (by rfl) (by decide)
  · exact h5.2.2.2.2.1 tOld (by rfl) (by rfl) (by decide)
      (PyVal.str "refresh_token") (by rfl) (by decide)
  · exact h5.2.2.2.2.2 tMailAlice (by rfl) (by rfl) (by decide)
      (PyVal.str "alice@x.com") (by rfl)

/-- Counterexample for C6 as stated: an invalid-signature token presented to
the email-token extractor fails with HTTP 422, not with the claimed 401. -/
theorem email_verifier_not_401 :
    get_email_from_token "secret" "HS256" 5
      { payload :=
          { sub := some (PyVal.str "alice@x.com")
            scope := Option.none
            password := Option.none
            iat := 0
            exp := 1000 }
        key := "wrong"
        alg := "HS256" } =
      .error (.http 422 "Invalid token for email verification") :=
  rfl

/-- C6 (amended): an invalid signature or expired timestamp yields the 401
credentials error from the refresh and access verifiers but a 422 from the
email- and password-token extractors; a wrong scope yields the 401
invalid-scope error from decode_refresh_token, the generic 401 credentials
error from get_current_user, and is not checked at all by the
extractors. -/
theorem verifier_failure_modes (key alg : String) (now : Nat) (t : Token)
    (db : List Consumer) :
    (t.key ≠ key ∨ t.alg ≠ alg ∨ t.payload.exp ≤ now →
      decode_refresh_token key alg now t =
        .error (.http 401 "Could not validate credentials")
      ∧ get_current_user key alg now t db =
        .error (.http 401 "Could not validate credentials")
      ∧ get_email_from_token key alg now t =
        .error (.http 422 "Invalid token for email verification")
      ∧ get_password_from_token key alg now t =
        .error (.http 422 "Invalid token for password verification"))
    ∧ (∀ sc, t.key = key → t.alg = alg → now < t.payload.exp →
        t.payload.scope = some sc →
        (sc ≠ PyVal.str "refresh_token" →
          decode_refresh_token key alg now t =
            .error (.http 401 "Invalid scope for token"))
        ∧ (sc ≠ PyVal.str "access_token" →
          get_current_user key alg now t db =
            .error (.http 401 "Could not validate credentials"))) := by
  constructor
  · intro hbad
    have hcond : ¬(t.key = key ∧ t.alg = alg ∧ now < t.payload.exp) := by
      intro hcon
      rcases hbad with h | h | h
      · exact h hcon.1
      · exact h hcon.2.1
      · exact absurd hcon.2.2 (Nat.not_lt.mpr h)
    refine ⟨?_, ?_, ?_, ?_⟩
    · unfold decode_refresh_token jwtDecode
      rw [if_neg hcond]
    · unfold get_current_user jwtDecode
      rw [if_neg hcond]
    · unfold get_email_from_token jwtDecode
      rw [if_neg hcond]
    · unfold get_password_from_token jwtDecode
      rw [if_neg hcond]
  · intro sc hk ha he hs
    constructor
    · intro hne
      simp [decode_refresh_token, jwtDecode, hk, ha, he, hs, hne]
    · intro hne
      simp [get_current_user, jwtDecode, hk, ha, he, hs, hne]

/-- Witness for C6 at concrete tokens: each failure mode of each verifier
evaluated on the sample tokens. -/
theorem verifier_failure_modes_witness :
    decode_refresh_token "secret" "HS256" 5 tBadKey =
      .error (.http 401 "Could not validate credentials")
    ∧ get_current_user "secret" "HS256" 5 tBadKey sampleDb =
      .error (.http 401 "Could not validate credentials")
    ∧ get_email_from_token "secret" "HS256" 5 tBadKey =
      .error (.http 422 "Invalid token for email verification")
    ∧ get_password_from_token "secret" "HS256" 5 tBadKey =
      .error (.http 422 "Invalid token for password verification")
    ∧ decode_refresh_token "secret" "HS256" 5 tGhost =
      .error (.http 401 "Invalid scope for token")
    ∧ get_current_user "secret" "HS256" 5 tOld sampleDb =
      .error (.http 401 "Could not validate credentials") := by
  have h1 := (verifier_failure_modes "secret" "HS256" 5 tBadKey sampleDb).1
    (Or.inl (by decide))
  have h2 := (verifier_failure_modes "secret" "HS256" 5 tGhost sampleDb).2
    (PyVal.str "access_token") (by rfl) (by rfl) (by decide) (by rfl)
  have h3 := (verifier_failure_modes "secret" "HS256" 5 tOld sampleDb).2
    (PyVal.str "refresh_token") (by rfl) (by rfl) (by decide) (by rfl)
  exact ⟨h1.1, h1.2.1, h1.2.2.1, h1.2.2.2, h2.1 (by decide),
    h3.2 (by decide)⟩

end TodoBackend
